import Mathlib

/-!
Shallow embedding of the query translation and relationship-stitching engine
of the `ndc-calcite`/`ndc-cassandra` connector
(`crates/connectors/ndc-calcite/src/sql.rs`, `query.rs`, `calcite.rs`).

Conventions:
- `serde_json::Value` is modelled by `JValue` (numbers restricted to the
  integers that occur in the development).
- Rust panics (`unwrap`, `todo!`, out-of-range indexing/slicing) are modelled
  by `Option`-valued functions returning `none`; `Result<T, E>` values are
  modelled by `Except String T`.  A function whose Rust type is
  `Result<T, E>` but which may also panic is modelled as
  `Option (Except String T)`.
- `BTreeMap`/`HashMap`/`IndexMap` values are modelled as association lists;
  for `BTreeMap` the entries are understood to be listed in sorted key
  order, and keys are distinct in all maps.
- `Row = IndexMap<FieldName, RowFieldValue>` is modelled as an association
  list of field name and value (`RowFieldValue` is a transparent newtype
  over `Value` and is flattened away).
-/

namespace NdcCalcite

/-- `serde_json::Value`, with numbers restricted to integers. -/
inductive JValue where
  | null : JValue
  | bool (b : Bool) : JValue
  | num (n : Int) : JValue
  | str (s : String) : JValue
  | arr (items : List JValue) : JValue
  | obj (entries : List (String × JValue)) : JValue

mutual
/-- Structural equality on JSON values (`serde_json::Value::eq`). -/
def JValue.beq : JValue → JValue → Bool
  | .null, .null => true
  | .bool a, .bool b => a = b
  | .num a, .num b => a = b
  | .str a, .str b => a = b
  | .arr a, .arr b => jvalListBeq a b
  | .obj a, .obj b => jvalEntriesBeq a b
  | _, _ => false

def jvalListBeq : List JValue → List JValue → Bool
  | [], [] => true
  | a :: as_, b :: bs => JValue.beq a b && jvalListBeq as_ bs
  | _, _ => false

def jvalEntriesBeq : List (String × JValue) → List (String × JValue) → Bool
  | [], [] => true
  | (ka, va) :: as_, (kb, vb) :: bs =>
      ka = kb && JValue.beq va vb && jvalEntriesBeq as_ bs
  | _, _ => false
end

/-- JSON string escaping used by `serde_json` when serializing a string
(restricted to the escapes relevant here; characters are compared by code
point: 34 is the double quote, 92 the backslash, 10/9/13 are
newline/tab/carriage return). -/
def jsonEscapeChar (c : Char) : String :=
  if c.toNat = 34 then "\\\""
  else if c.toNat = 92 then "\\\\"
  else if c.toNat = 10 then "\\n"
  else if c.toNat = 9 then "\\t"
  else if c.toNat = 13 then "\\r"
  else String.singleton c

/-- A JSON string literal: quotes around the escaped contents. -/
def jsonQuote (s : String) : String :=
  "\"" ++ String.join (s.toList.map jsonEscapeChar) ++ "\""

mutual
/-- `serde_json::Value::to_string()`: compact JSON serialization. -/
def JValue.toJsonString : JValue → String
  | .null => "null"
  | .bool true => "true"
  | .bool false => "false"
  | .num n => toString n
  | .str s => jsonQuote s
  | .arr items => "[" ++ String.intercalate "," (jsonStringList items) ++ "]"
  | .obj entries => "\x7b" ++ String.intercalate "," (jsonStringEntries entries) ++ "\x7d"

def jsonStringList : List JValue → List String
  | [] => []
  | v :: vs => JValue.toJsonString v :: jsonStringList vs

def jsonStringEntries : List (String × JValue) → List String
  | [] => []
  | (k, v) :: es => (jsonQuote k ++ ":" ++ JValue.toJsonString v) :: jsonStringEntries es
end

/-- Lookup in an association-list map (`BTreeMap::get` / `HashMap::get` /
`IndexMap::get`). -/
def lookupKey {α : Type} (m : List (String × α)) (k : String) : Option α :=
  match m with
  | [] => none
  | (k', v) :: rest => if k' = k then some v else lookupKey rest k

/-- `IndexMap::contains_key`. -/
def containsKey {α : Type} (m : List (String × α)) (k : String) : Bool :=
  match m with
  | [] => false
  | (k', _) :: rest => k' = k || containsKey rest k

/-- `IndexMap::insert`: replaces the value in place when the key is present,
otherwise appends the new entry at the end. -/
def mapInsert {α : Type} (m : List (String × α)) (k : String) (v : α) :
    List (String × α) :=
  match m with
  | [] => [(k, v)]
  | (k', v') :: rest =>
      if k' = k then (k', v) :: rest else (k', v') :: mapInsert rest k v

/-- `IndexMap::swap_remove`: removes the entry with the given key, moving the
last entry into its position (no change when the key is absent). -/
def swapRemove {α : Type} (m : List (String × α)) (k : String) :
    List (String × α) :=
  match m.findIdx? (fun kv => kv.1 = k) with
  | none => m
  | some i =>
      match m.getLast? with
      | none => m
      | some last => (m.dropLast).set i last

/-- A row: `IndexMap<FieldName, RowFieldValue>` flattened to field name and
JSON value. -/
abbrev Row := List (String × JValue)

/-- `TableMetadata` (`calcite-schema/src/calcite.rs`), restricted to the
fields read by the functions modelled here; `physical_catalog`,
`physical_schema`, `description`, `columns`, `primary_keys` and
`exported_keys` are never read by them and are omitted. -/
structure TableMetadata where
  catalog : Option String
  schema : Option String
  name : String
  deriving Repr, DecidableEq

/-- `ParsedConfiguration` (`calcite-schema/src/version5.rs`), restricted to
the fields read by the functions modelled here; `version`, `_schema`,
`model`, `model_file_path` and `jars` are omitted.  `metadata` is
`Option<HashMap<CollectionName, TableMetadata>>`. -/
structure ParsedConfiguration where
  fixes : Option Bool
  supports_json_object : Option Bool
  metadata : Option (List (String × TableMetadata))
  deriving Repr, DecidableEq

/-- `ndc_models::UnaryComparisonOperator`. -/
inductive UnaryCmpOperator where
  | isNull : UnaryCmpOperator
  deriving Repr, DecidableEq

/-- `ndc_models::ComparisonTarget` (the unused `path` field of the `Column`
variant is omitted). -/
inductive ComparisonTarget where
  | column (name : String) (field_path : Option (List String))
  | rootCollectionColumn (name : String) (field_path : Option (List String))
  deriving Repr, DecidableEq

/-- `ndc_models::RelationshipArgument`. -/
inductive RelationshipArgument where
  | variable (name : String)
  | literal (value : JValue)
  | column (name : String)

/-- `ndc_models::ExistsInCollection`. -/
inductive ExistsInCollection where
  | related (relationship : String)
      (arguments : List (String × RelationshipArgument))
  | unrelated (collection : String)
      (arguments : List (String × RelationshipArgument))

/-- `ndc_models::ComparisonValue`. -/
inductive ComparisonValue where
  | column (column : ComparisonTarget)
  | scalar (value : JValue)
  | variable (name : String)

/-- `ndc_models::Expression` (operator names are plain strings, as
`ComparisonOperatorName` is a string newtype). -/
inductive Expression where
  | and (expressions : List Expression)
  | or (expressions : List Expression)
  | not (expression : Expression)
  | unaryComparisonOperator (column : ComparisonTarget)
      (operator : UnaryCmpOperator)
  | binaryComparisonOperator (column : ComparisonTarget) (operator : String)
      (value : ComparisonValue)
  | existsIn (in_collection : ExistsInCollection)
      (predicate : Option Expression)

/-- Structural equality on `RelationshipArgument` values. -/
def RelationshipArgument.beq : RelationshipArgument → RelationshipArgument → Bool
  | .variable a, .variable b => a = b
  | .literal a, .literal b => JValue.beq a b
  | .column a, .column b => a = b
  | _, _ => false

/-- Structural equality on argument maps. -/
def argEntriesBeq :
    List (String × RelationshipArgument) → List (String × RelationshipArgument) → Bool
  | [], [] => true
  | (ka, va) :: as_, (kb, vb) :: bs =>
      ka = kb && RelationshipArgument.beq va vb && argEntriesBeq as_ bs
  | _, _ => false

/-- Structural equality on `ExistsInCollection` values. -/
def ExistsInCollection.beq : ExistsInCollection → ExistsInCollection → Bool
  | .related r a, .related r' a' => r = r' && argEntriesBeq a a'
  | .unrelated c a, .unrelated c' a' => c = c' && argEntriesBeq a a'
  | _, _ => false

/-- Structural equality on `ComparisonValue` values. -/
def ComparisonValue.beq : ComparisonValue → ComparisonValue → Bool
  | .column a, .column b => a = b
  | .scalar a, .scalar b => JValue.beq a b
  | .variable a, .variable b => a = b
  | _, _ => false

mutual
/-- Structural equality on expressions. -/
def Expression.beq : Expression → Expression → Bool
  | .and a, .and b => exprListBeq a b
  | .or a, .or b => exprListBeq a b
  | .not a, .not b => Expression.beq a b
  | .unaryComparisonOperator c o, .unaryComparisonOperator c' o' =>
      c = c' && o = o'
  | .binaryComparisonOperator c o v, .binaryComparisonOperator c' o' v' =>
      c = c' && o = o' && ComparisonValue.beq v v'
  | .existsIn i p, .existsIn i' p' =>
      ExistsInCollection.beq i i' && exprOptionBeq p p'
  | _, _ => false

def exprListBeq : List Expression → List Expression → Bool
  | [], [] => true
  | a :: as_, b :: bs => Expression.beq a b && exprListBeq as_ bs
  | _, _ => false

def exprOptionBeq : Option Expression → Option Expression → Bool
  | none, none => true
  | some a, some b => Expression.beq a b
  | _, _ => false
end

mutual
/-- Whether `target` occurs as a sub-expression of `e` (including `e`
itself), up to structural equality. -/
def Expression.containsSub (e target : Expression) : Bool :=
  Expression.beq e target ||
    (match e with
     | .and es => exprListContainsSub es target
     | .or es => exprListContainsSub es target
     | .not e1 => Expression.containsSub e1 target
     | .existsIn _ (some p) => Expression.containsSub p target
     | _ => false)

def exprListContainsSub (es : List Expression) (target : Expression) : Bool :=
  match es with
  | [] => false
  | e :: rest => Expression.containsSub e target || exprListContainsSub rest target
end

/-- `ndc_models::RelationshipType`. -/
inductive RelationshipType where
  | object : RelationshipType
  | array : RelationshipType
  deriving Repr, DecidableEq

/-- `ndc_models::Relationship`, restricted to the fields read here
(`arguments` is omitted; `column_mapping : BTreeMap<FieldName, FieldName>`
is the list of source-column/target-column pairs in sorted key order). -/
structure Relationship where
  column_mapping : List (String × String)
  relationship_type : RelationshipType
  target_collection : String
  deriving Repr, DecidableEq

/-- `ndc_models::Aggregate`, restricted to the fields read here
(`field_path` omitted). -/
inductive Aggregate where
  | columnCount (column : String) (distinct : Bool)
  | singleColumn (column : String) (function : String)
  | starCount
  deriving Repr, DecidableEq

mutual
/-- `ndc_models::Query`, restricted to the fields read by the functions
modelled here (`order_by` and `groups` are carried unchanged or unused and
are omitted).  `limit`/`offset` are `Option<u32>`, modelled as `Option Nat`. -/
inductive Query where
  | mk (aggregates : Option (List (String × Aggregate)))
      (fields : Option (List (String × Field)))
      (limit : Option Nat) (offset : Option Nat)
      (predicate : Option Expression) : Query

/-- `ndc_models::Field` (per-field `fields` nested projections and
`arguments` are omitted: the modelled functions never read them). -/
inductive Field where
  | column (column : String) : Field
  | relationship (query : Query) (relationship : String) : Field
end

def Query.aggregates : Query → Option (List (String × Aggregate))
  | .mk a _ _ _ _ => a

def Query.fields : Query → Option (List (String × Field))
  | .mk _ f _ _ _ => f

def Query.limit : Query → Option Nat
  | .mk _ _ l _ _ => l

def Query.offset : Query → Option Nat
  | .mk _ _ _ o _ => o

def Query.predicate : Query → Option Expression
  | .mk _ _ _ _ p => p

/-! ## `sql.rs`: the predicate compiler -/

/-- `create_qualified_table_name` (`sql.rs`): dot-joined quoted
catalog/schema/name, omitting empty qualifier segments. -/
def create_qualified_table_name (table_metadata : TableMetadata) : String :=
  let catalog := table_metadata.catalog.getD ""
  let schema := table_metadata.schema.getD ""
  let name := table_metadata.name
  let path : List String :=
    (if catalog.isEmpty then [] else ["\"" ++ catalog ++ "\""]) ++
    (if schema.isEmpty then [] else ["\"" ++ schema ++ "\""]) ++
    ["\"" ++ name ++ "\""]
  String.intercalate "." path

/-- `create_column_name` (`sql.rs`): the field path joined with dots,
directly followed by the column name (note: no separator between the joined
path and the name, exactly as in the source `format!`). -/
def create_column_name (name : String) (field_path : Option (List String)) :
    String :=
  match field_path with
  | none => name
  | some f => String.intercalate "." f ++ name

/-- `sql_brackets` (`sql.rs`): when the input starts with `[` and ends with
`]`, overwrite the first character with `(` and the last with `)`. -/
def sql_brackets (input : String) : String :=
  let chars := input.toList
  if chars.head? = some '[' ∧ chars.getLast? = some ']' then
    String.mk ((chars.set 0 '(').set (chars.length - 1) ')')
  else
    String.mk chars

/-- The per-character action of `sql_quotes`: a single quote (code point 39)
becomes an escaped quote, a double quote (code point 34) becomes the
`__UTF8__` sentinel. -/
def sqlQuoteChar (c : Char) : String :=
  if c.toNat = 39 then "\\'"
  else if c.toNat = 34 then "__UTF8__"
  else String.singleton c

/-- `sql_quotes` (`sql.rs`): escape single quotes and replace double quotes
with the `__UTF8__` sentinel (both `str::replace` patterns are single
characters, so the replacement proceeds character by character). -/
def sql_quotes (input : String) : String :=
  String.join (input.toList.map sqlQuoteChar)

/-- The fixed operator symbol table of `process_sql_expression`
(`sql.rs` lines 280-289); lookup panics on an unknown operator. -/
def sql_operations : List (String × String) :=
  [("_gt", ">"), ("_lt", "<"), ("_gte", ">="), ("_lte", "<="),
   ("_eq", "="), ("_in", "IN"), ("_like", "LIKE")]

/-- `create_arguments` (`sql.rs`): renders `limit`/`offset` relationship
arguments, dropping all others; a `Variable` argument missing from the
variable bindings panics (`unwrap`), modelled by `none`. -/
def create_arguments (vars : List (String × JValue))
    (arguments : List (String × RelationshipArgument)) :
    Option (List String) := do
  let rendered ← arguments.mapM (fun (name, arg) => do
    let value ←
      match arg with
      | .variable n => (lookupKey vars n).map JValue.toJsonString
      | .literal v => some v.toJsonString
      | .column n => some ("\"" ++ n ++ "\"")
    some (if name = "limit" then "LIMIT " ++ value
          else if name = "offset" then "OFFSET " ++ value
          else ""))
  some (rendered.filter (fun arg => ¬ arg.isEmpty))

/-- Rust `Debug` escaping of a string (`char::escape_debug`), restricted to
the escapes relevant here. -/
def rustDebugQuote (s : String) : String :=
  "\"" ++ String.join (s.toList.map jsonEscapeChar) ++ "\""

/-- Rust `Debug` formatting of a `Result<String, Box<dyn Error>>` value, as
used by the `Expression::Not` arm's `format!("(NOT {:?})", ...)`.  The
`Err` rendering is schematic; `process_sql_expression` never returns `Err`
(see `process_sql_expression_never_err`). -/
def rustDebugResult : Except String String → String
  | .ok s => "Ok(" ++ rustDebugQuote s ++ ")"
  | .error e => "Err(" ++ e ++ ")"

/-- Looks up the current collection's metadata and renders its qualified
table name (`create_qualified_table_name(configuration.clone().metadata
.unwrap().get(collection).unwrap())`); both `unwrap`s panic (`none`). -/
def qualifiedTableOf (configuration : ParsedConfiguration)
    (collection : String) : Option String := do
  let metadata ← configuration.metadata
  let table_metadata ← lookupKey metadata collection
  some (create_qualified_table_name table_metadata)

mutual
/-- `process_sql_expression` (`sql.rs` lines 270-421): compiles an
`Expression` to its textual boolean form.  The Rust function returns
`Result<String, Box<dyn Error>>` but can also panic (`unwrap`, `todo!`);
`none` models a panic, `Except` models the `Result`. -/
def process_sql_expression (configuration : ParsedConfiguration)
    (collection : String)
    (collection_relationships : List (String × Relationship))
    (vars : List (String × JValue)) (expr : Expression) :
    Option (Except String String) := do
  let table ← qualifiedTableOf configuration collection
  match expr with
  | .and expressions => do
      -- `filter_map(|e| process_sql_expression(...).ok())`: a panic in any
      -- sub-expression propagates; an `Err` result would be dropped.
      let results ← process_expression_list configuration collection
        collection_relationships vars expressions
      some (.ok ("(" ++
        String.intercalate " AND " (results.filterMap Except.toOption) ++ ")"))
  | .or expressions => do
      let results ← process_expression_list configuration collection
        collection_relationships vars expressions
      some (.ok ("(" ++
        String.intercalate " OR " (results.filterMap Except.toOption) ++ ")"))
  | .not expression => do
      -- The source formats the recursive call's `Result` with `{:?}` and
      -- never unwraps it: `Ok(format!("(NOT {:?})", process_sql_expression(...)))`.
      let result ← process_sql_expression configuration collection
        collection_relationships vars expression
      some (.ok ("(NOT " ++ rustDebugResult result ++ ")"))
  | .unaryComparisonOperator column .isNull =>
      match column with
      | .column name field_path =>
          some (.ok ("\"" ++ create_column_name name field_path ++ "\" IS NULL"))
      | .rootCollectionColumn _ _ => none  -- `todo!()`
  | .binaryComparisonOperator column operator value => do
      let sql_operation ← lookupKey sql_operations operator  -- `.unwrap()`
      let left_side ←
        match column with
        | .column name field_path =>
            some ("\"" ++ create_column_name name field_path ++ "\"")
        | .rootCollectionColumn _ _ => none  -- `todo!()`
      let right_side ←
        match value with
        | .column c =>
            match c with
            | .column name field_path => some (create_column_name name field_path)
            | .rootCollectionColumn _ _ => none  -- `todo!()`
        | .scalar v =>
            let sql_value := sql_quotes (sql_brackets v.toJsonString)
            if sql_value = "()" then do
              let table2 ← qualifiedTableOf configuration collection
              some ("(SELECT " ++ left_side ++ " FROM " ++ table2 ++ " WHERE FALSE)")
            else
              some sql_value
        | .variable name => (lookupKey vars name).map JValue.toJsonString
      some (.ok (left_side ++ " " ++ sql_operation ++ " " ++ right_side))
  | .existsIn in_collection predicate =>
      match in_collection with
      | .related relationship arguments => do
          let argument_parts ← create_arguments vars arguments
          let root_relationship ← lookupKey collection_relationships relationship
          let foreign_table ←
            qualifiedTableOf configuration root_relationship.target_collection
          match predicate with
          | some pred_expression => do
              let sub_query_clause := root_relationship.column_mapping.map
                (fun (source_column, target_column) =>
                  table ++ ".\"" ++ source_column ++ "\" = \"" ++ target_column ++ "\"")
              let result ← process_sql_expression configuration collection
                collection_relationships vars pred_expression
              let expression ← result.toOption  -- `.unwrap()`
              some (.ok ("EXISTS (SELECT 1 FROM " ++ foreign_table ++ " WHERE (" ++
                String.intercalate " AND " sub_query_clause ++ " AND " ++
                expression ++ ") " ++ String.intercalate " " argument_parts ++ ")"))
          | none => some (.ok "")
      | .unrelated collection2 arguments =>
          match predicate with
          | some pred_expression => do
              let argument_parts ← create_arguments vars arguments
              let result ← process_sql_expression configuration collection2
                collection_relationships vars pred_expression
              let expression ← result.toOption  -- `.unwrap()`
              let foreign_table ← qualifiedTableOf configuration collection2
              some (.ok ("EXISTS (SELECT 1 FROM " ++ foreign_table ++ " WHERE " ++
                expression ++ " " ++ String.intercalate " " argument_parts ++ ")"))
          | none => some (.ok "")

/-- Processes the sub-expressions of an `And`/`Or` node in order; a panic
(`none`) in any of them propagates (the Rust `filter_map` closure runs on
all elements and an unwinding panic aborts the whole compile). -/
def process_expression_list (configuration : ParsedConfiguration)
    (collection : String)
    (collection_relationships : List (String × Relationship))
    (vars : List (String × JValue)) (exprs : List Expression) :
    Option (List (Except String String)) :=
  match exprs with
  | [] => some []
  | e :: rest => do
      let r ← process_sql_expression configuration collection
        collection_relationships vars e
      let rs ← process_expression_list configuration collection
        collection_relationships vars rest
      some (r :: rs)
end

/-! ## `query.rs`: the relationship resolver -/

/-- Insertion into a `serde_json::map::Map` (a `BTreeMap<String, Value>` in
its default configuration: entries kept in sorted key order, insertion with
an existing key replaces the value). -/
def btreeInsert (m : List (String × JValue)) (k : String) (v : JValue) :
    List (String × JValue) :=
  match m with
  | [] => [(k, v)]
  | (k', v') :: rest =>
      if k = k' then (k, v) :: rest
      else if k < k' then (k, v) :: (k', v') :: rest
      else (k', v') :: btreeInsert rest k v

/-- `parse_relationship` (`query.rs` lines 156-167): rejects composite
(multi-column) key mappings, otherwise returns the column-mapping pairs,
the source-key columns, and the relationship type. -/
def parse_relationship (sub_relationship : Relationship) :
    Except String (List (String × String) × List String × RelationshipType) :=
  let pks := sub_relationship.column_mapping
  if pks.length > 1 then
    .error "Cannot create a sub-query based on a composite key"
  else
    .ok (pks, sub_relationship.column_mapping.map (fun kv => kv.1),
         sub_relationship.relationship_type)

/-- `generate_value_from_rows` (`query.rs` lines 136-153): projects the
source-key column(s) of each parent row into a JSON value (missing columns
become `null`; a single-column mapping yields the bare value, otherwise an
array), collected into a JSON array over the rows. -/
def generate_value_from_rows (rows_data : List Row)
    (sub_relationship : Relationship) : JValue :=
  .arr (rows_data.map (fun row =>
    let row_values := sub_relationship.column_mapping.map
      (fun (foreign_key, _) => (lookupKey row foreign_key).getD .null)
    match row_values with
    | [v] => v
    | vs => .arr vs))

/-- `generate_predicate` (`query.rs` lines 203-214): builds
`<target key column> _in <value>`; indexing `pks[0]` panics on an empty
mapping (`none`). -/
def generate_predicate (pks : List (String × String)) (value : JValue) :
    Option Expression := do
  let (_, name) ← pks.head?
  some (.binaryComparisonOperator (.column name none) "_in" (.scalar value))

/-- `revise_query` (`query.rs` lines 217-235): sets the child query's
predicate to the synthesized one, clears limit and offset, and makes sure
the key columns are projected; `query.fields.unwrap()` panics (`none`) when
the child query has no field selection. -/
def revise_query (query : Query) (predicate : Expression)
    (pks : List (String × String)) : Option Query := do
  let fields ← query.fields
  let fields := pks.foldl (fun fields pk =>
    let (key, name) := pk
    if ¬ containsKey fields name then
      mapInsert fields key (.column name)
    else fields) fields
  some (Query.mk query.aggregates (some fields) none none (some predicate))

/-- `process_child_rows` (`query.rs` lines 320-338): the value attached at a
relationship field — a JSON object with an `aggregates` slot (always
`null`) and a `rows` slot holding the child rows as JSON objects, or
`null` when there are no children. -/
def process_child_rows (child_rows : List Row) : JValue :=
  let rowset := btreeInsert [] "aggregates" .null
  if ¬ child_rows.isEmpty then
    let result := child_rows.map (fun child =>
      child.foldl (fun map kv => btreeInsert map kv.1 kv.2) [])
    .obj (btreeInsert rowset "rows" (.arr (result.map JValue.obj)))
  else
    .obj (btreeInsert rowset "rows" .null)

/-- The child rows of `fk_rows` whose value at the source-key column `key`
equals the parent's key value (`query.rs` lines 263-273 and 298-305): rows
without the column are skipped. -/
def childMatches (fk_rows : List Row) (key : String) (pk_value : JValue) :
    List Row :=
  fk_rows.filter (fun x =>
    match lookupKey x key with
    | some sub_value => JValue.beq sub_value pk_value
    | none => false)

/-- The per-row body of `process_object_relationship` (`query.rs` lines
254-281): keeps at most the first matching child.  Panics (`none`):
`fks[0]` on an empty key list, `row.get(fks[0]).unwrap()` on a missing
key column, `pks[0]` on an empty mapping. -/
def process_object_row (field_name : String) (fk_rows : List Row)
    (pks : List (String × String)) (fks : List String) (row : Row) :
    Option Row := do
  let fk0 ← fks.head?
  let pk_value ← lookupKey row fk0
  match lookupKey row field_name with
  | none => some row
  | some _ => do
      let (key, _name) ← pks.head?
      let child_rows := childMatches fk_rows key pk_value
      let child_rows :=
        if child_rows.length > 1 then
          match child_rows with
          | c :: _ => [c]
          | [] => []
        else child_rows
      some (mapInsert row field_name (process_child_rows child_rows))

/-- `process_object_relationship` (`query.rs` lines 253-283). -/
def process_object_relationship (rows : List Row) (field_name : String)
    (fk_rows : List Row) (pks : List (String × String)) (fks : List String) :
    Option (List Row) :=
  rows.mapM (process_object_row field_name fk_rows pks fks)

/-- The per-row body of `process_array_relationship` (`query.rs` lines
287-315): keeps all matching children, then — when the child query has a
positive limit and there is at least one match — slices
`child_rows[offset .. min(offset + limit, len)]`; a slice whose start
exceeds its end panics (`none`). -/
def process_array_row (field_name : String) (fk_rows : List Row)
    (pks : List (String × String)) (fks : List String) (query : Query)
    (row : Row) : Option Row := do
  let offset := query.offset.getD 0
  let limit := query.limit.getD 0
  let fk0 ← fks.head?
  let pk_value ← lookupKey row fk0
  match lookupKey row field_name with
  | none => some row
  | some _ => do
      let (key, _name) ← pks.head?
      let child_rows := childMatches fk_rows key pk_value
      let child_rows ←
        if limit > 0 ∧ ¬ child_rows.isEmpty then
          let max_rows := min (offset + limit) child_rows.length
          if offset ≤ max_rows then
            some ((child_rows.take max_rows).drop offset)
          else
            none
        else some child_rows
      some (mapInsert row field_name (process_child_rows child_rows))

/-- `process_array_relationship` (`query.rs` lines 286-317);
`rows.clone().unwrap()` panics (`none`) when the row set is absent. -/
def process_array_relationship (rows : Option (List Row))
    (field_name : String) (fk_rows : List Row)
    (pks : List (String × String)) (fks : List String) (query : Query) :
    Option (List Row) := do
  let rows ← rows
  rows.mapM (process_array_row field_name fk_rows pks fks query)

/-- One iteration of the relationship loop of `orchestrate_query`
(`query.rs` lines 112-127) for one relationship field.  The recursive
pipeline invocation (`execute_query`) is abstracted as `executor`, which
receives the related collection's relationship and the revised child query
and returns the fetched child rows (`none` models a panic inside it,
`.error` a query failure). -/
def resolve_relationship_field
    (coll_rel : List (String × Relationship))
    (executor : Relationship → Query → Option (Except String (List Row)))
    (rows : List Row) (field_name : String) (query : Query)
    (relationship : String) : Option (Except String (List Row)) := do
  let sub_relationship ← lookupKey coll_rel relationship  -- `.unwrap()`
  match parse_relationship sub_relationship with
  | .error e => some (.error e)
  | .ok (primary_keys, foreign_keys, relationship_type) => do
      let relationship_value := generate_value_from_rows rows sub_relationship
      let predicate_expression ← generate_predicate primary_keys relationship_value
      let revised_query ← revise_query query predicate_expression primary_keys
      let res ← executor sub_relationship revised_query
      match res with
      | .error e => some (.error e)
      | .ok res_relationship_rows =>
          if relationship_type = .object then
            (process_object_relationship rows field_name res_relationship_rows
              primary_keys foreign_keys).map .ok
          else
            (process_array_relationship (some rows) field_name
              res_relationship_rows primary_keys foreign_keys query).map .ok

/-! ## `calcite.rs`: row-shape normalization -/

/-- The sentinel normalization inside `fix_rows`: a JSON string `"null"`
(`val == "null"`) is replaced with JSON `null`. -/
def normalizeSentinel (v : JValue) : JValue :=
  match v with
  | .str s => if s = "null" then .null else v
  | _ => v

/-- The per-row body of `fix_rows` (`calcite.rs` lines 177-193): when the
row has fewer entries than the number of requested fields plus aggregates,
missing requested keys are backfilled with `null`; then sentinel `"null"`
strings are normalized and the `CONSTANT` placeholder column is removed. -/
def fix_row (key_sample : List String) (max_keys : Nat) (row : Row) : Row :=
  let row :=
    if max_keys > row.length then
      key_sample.foldl (fun row key =>
        if ¬ containsKey row key then mapInsert row key .null else row) row
    else row
  let row := row.map (fun kv => (kv.1, normalizeSentinel kv.2))
  swapRemove row "CONSTANT"

/-- `fix_rows` (`calcite.rs` lines 163-195). -/
def fix_rows (rows : List Row) (query_metadata : Query) : List Row :=
  let fields := query_metadata.fields.getD []
  let aggregates := query_metadata.aggregates.getD []
  let max_keys := fields.length + aggregates.length
  let key_sample := fields.map (fun kv => kv.1) ++ aggregates.map (fun kv => kv.1)
  rows.map (fix_row key_sample max_keys)

/-! ## Concrete example inputs -/

/-- Metadata for an example `orders` collection. -/
def ex_metadata_orders : TableMetadata :=
  { catalog := none, schema := some "s", name := "orders" }

/-- Metadata for an example `customers` collection. -/
def ex_metadata_customers : TableMetadata :=
  { catalog := none, schema := some "s", name := "customers" }

/-- An example configuration holding the two collections. -/
def ex_config : ParsedConfiguration :=
  { fixes := some true, supports_json_object := none,
    metadata := some [("orders", ex_metadata_orders),
                      ("customers", ex_metadata_customers)] }

/-- A single-column object relationship `orders.customer_id → customers.id`. -/
def ex_customer_rel : Relationship :=
  { column_mapping := [("customer_id", "id")],
    relationship_type := .object, target_collection := "customers" }

/-- A single-column array relationship on the same key columns. -/
def ex_kids_rel : Relationship :=
  { column_mapping := [("customer_id", "id")],
    relationship_type := .array, target_collection := "customers" }

/-- A composite-key (two column pairs) relationship. -/
def ex_composite_rel : Relationship :=
  { column_mapping := [("a", "x"), ("b", "y")],
    relationship_type := .array, target_collection := "customers" }

/-- The request-scoped relationship table for the examples. -/
def ex_relationships : List (String × Relationship) :=
  [("composite", ex_composite_rel), ("customer", ex_customer_rel),
   ("kids", ex_kids_rel)]

/-- A parent row whose `kids` field carries the relationship placeholder. -/
def ex_parent_row : Row :=
  [("id", .num 1), ("customer_id", .num 9), ("kids", .num 1)]

/-- Ten child rows all matching the parent key value `9`. -/
def ex_child_rows : List Row :=
  (List.range 10).map (fun i => [("customer_id", .num 9), ("n", .num (i : Int))])

/-- A child predicate carried by the child query of the example relationship
field. -/
def c2_child_predicate : Expression :=
  .unaryComparisonOperator (.column "active" none) .isNull

/-- The predicate synthesized by the resolver for the example parent rows:
`id _in [9]`. -/
def c2_in_predicate : Expression :=
  .binaryComparisonOperator (.column "id" none) "_in" (.scalar (.arr [.num 9]))

/-- The single-pair column mapping used by the example relationship. -/
def c2_pks : List (String × String) := [("customer_id", "id")]

/-- A child query carrying its own predicate, limit and offset. -/
def c2_query : Query :=
  .mk none (some [("name", .column "name")]) (some 5) (some 2)
    (some c2_child_predicate)

/-- A child query with limit 3 and offset 2. -/
def c6_query : Query :=
  .mk none (some [("n", .column "n")]) (some 3) (some 2) none

/-- A child query with limit 3 and an offset beyond the ten matching
children. -/
def c10_query : Query :=
  .mk none (some [("n", .column "n")]) (some 3) (some 20) none

/-- A child query with no limit and a large offset. -/
def c10_query_no_limit : Query :=
  .mk none (some [("n", .column "n")]) none (some 20) none

/-- A request for plain-column fields `f1` and `f2`. -/
def c7_query : Query :=
  .mk none (some [("f1", .column "f1"), ("f2", .column "f2")]) none none none

/-- An engine row for `c7_query` carrying requested `f1` plus an extra
column `x` not in the request. -/
def c7_engine_row : Row := [("f1", .num 1), ("x", .num 2)]

/-! ## Helper lemmas -/

/-- If one member of the list fails to compile (panics), processing the
whole list fails. -/
theorem process_expression_list_eq_none_of_mem
    (configuration : ParsedConfiguration) (collection : String)
    (rels : List (String × Relationship)) (vars : List (String × JValue))
    {exprs : List Expression} {e : Expression} (hmem : e ∈ exprs)
    (hfail : process_sql_expression configuration collection rels vars e = none) :
    process_expression_list configuration collection rels vars exprs = none := by
  induction exprs with
  | nil => cases hmem
  | cons a rest ih =>
      rcases List.mem_cons.mp hmem with h | h
      · subst h
        simp [process_expression_list, hfail]
      · cases ha : process_sql_expression configuration collection rels vars a <;>
          simp [process_expression_list, ha, ih h]

/-- An empty JSON array renders as `[]`, which `sql_brackets` turns into
`()` and `sql_quotes` leaves unchanged. -/
theorem empty_array_sql_value :
    sql_quotes (sql_brackets (JValue.toJsonString (.arr []))) = "()" := rfl

/-- `process_sql_expression` never returns an `Err` value: every arm either
panics or produces `Ok`, so the `filter_map(.ok())` in the `And`/`Or` arms
can never drop a sub-expression result. -/
theorem process_sql_expression_never_err (configuration : ParsedConfiguration)
    (collection : String) (rels : List (String × Relationship))
    (vars : List (String × JValue)) (expr : Expression) (m : String) :
    process_sql_expression configuration collection rels vars expr ≠
      some (.error m) := by
  intro h
  cases htbl : qualifiedTableOf configuration collection with
  | none => rw [process_sql_expression, htbl] at h; cases expr <;> simp at h
  | some tbl =>
      cases expr <;> rw [process_sql_expression, htbl] at h <;>
        (try simp only [bind, Option.bind, Option.map] at h) <;>
        (repeat' first
          | split at h
          | (simp only [] at h)
          | simp_all)

/-! ## Claims about the predicate compiler (`sql.rs`) -/

/-- C1: an `And`/`Or` expression with a sub-expression that fails to compile
(it yields no condition string: the only failure mode is a panic, e.g. an
unresolvable operator, collection, variable, or relationship — an `Err` is
never produced, by `process_sql_expression_never_err`) never yields a
compiled condition built from the remaining sub-expressions; the whole
compilation fails. -/
theorem and_or_propagate_subexpression_failure
    (configuration : ParsedConfiguration) (collection : String)
    (rels : List (String × Relationship)) (vars : List (String × JValue))
    (exprs : List Expression) (e : Expression) (hmem : e ∈ exprs)
    (hfail : ∀ s, process_sql_expression configuration collection rels vars e ≠
      some (.ok s)) :
    process_sql_expression configuration collection rels vars (.and exprs) = none ∧
    process_sql_expression configuration collection rels vars (.or exprs) = none := by
  have hnone : process_sql_expression configuration collection rels vars e = none := by
    cases hres : process_sql_expression configuration collection rels vars e with
    | none => rfl
    | some r =>
        cases r with
        | ok s => exact absurd hres (hfail s)
        | error m =>
            exact absurd hres
              (process_sql_expression_never_err configuration collection rels
                vars e m)
  have hlist := process_expression_list_eq_none_of_mem configuration collection
    rels vars hmem hnone
  cases htbl : qualifiedTableOf configuration collection with
  | none => constructor <;> simp [process_sql_expression, htbl]
  | some t => constructor <;> simp [process_sql_expression, htbl, hlist]

/-- Witness for C1: an `_foo` operator is unresolvable, and the `And`/`Or`
around it fails even though the sibling `IS NULL` sub-expression compiles. -/
theorem and_or_propagate_subexpression_failure_witness :
    process_sql_expression ex_config "orders" ex_relationships []
      (.and [.binaryComparisonOperator (.column "id" none) "_foo" (.scalar (.num 1)),
             .unaryComparisonOperator (.column "id" none) .isNull]) = none ∧
    process_sql_expression ex_config "orders" ex_relationships []
      (.or [.binaryComparisonOperator (.column "id" none) "_foo" (.scalar (.num 1)),
            .unaryComparisonOperator (.column "id" none) .isNull]) = none :=
  and_or_propagate_subexpression_failure ex_config "orders" ex_relationships []
    _ _ (List.Mem.head _) (fun _ h => Option.noConfusion h)

/-- C4: `_in` against an empty literal array compiles to the always-false
sub-select `<column> IN (SELECT <column> FROM <table> WHERE FALSE)`, not to
`IN ()`. -/
theorem empty_in_list_compiles_to_false_subselect
    (configuration : ParsedConfiguration) (collection : String)
    (rels : List (String × Relationship)) (vars : List (String × JValue))
    (col : String) (fp : Option (List String)) (tbl : String)
    (htbl : qualifiedTableOf configuration collection = some tbl) :
    process_sql_expression configuration collection rels vars
      (.binaryComparisonOperator (.column col fp) "_in" (.scalar (.arr []))) =
    some (.ok (("\"" ++ create_column_name col fp ++ "\"") ++ " " ++ "IN" ++ " " ++
      ("(SELECT " ++ ("\"" ++ create_column_name col fp ++ "\"") ++ " FROM " ++
        tbl ++ " WHERE FALSE)"))) := by
  simp [process_sql_expression, htbl, sql_operations, lookupKey,
    empty_array_sql_value]

/-- Witness for C4 at a concrete column and collection. -/
theorem empty_in_list_compiles_to_false_subselect_witness :
    process_sql_expression ex_config "orders" ex_relationships []
      (.binaryComparisonOperator (.column "id" none) "_in" (.scalar (.arr []))) =
    some (.ok (("\"" ++ create_column_name "id" none ++ "\"") ++ " " ++ "IN" ++ " " ++
      ("(SELECT " ++ ("\"" ++ create_column_name "id" none ++ "\"") ++ " FROM " ++
        "\"s\".\"orders\"" ++ " WHERE FALSE)"))) :=
  empty_in_list_compiles_to_false_subselect ex_config "orders" ex_relationships []
    "id" none "\"s\".\"orders\"" rfl

/-- C8 (code bug): the `Not` arm formats the recursive `Result` with `{:?}`
instead of unwrapping it, so a sub-expression that compiles to
`"id" IS NULL` yields `(NOT Ok("\"id\" IS NULL"))` — the Rust `Debug`
rendering embedded in the SQL — rather than `(NOT "id" IS NULL)`. -/
theorem not_expression_embeds_debug_formatted_result :
    process_sql_expression ex_config "orders" ex_relationships []
      (.not (.unaryComparisonOperator (.column "id" none) .isNull)) =
    some (.ok "(NOT Ok(\"\\\"id\\\" IS NULL\"))") := rfl

/-- C9: an `Exists` expression with no nested predicate — over a related or
an unrelated collection — compiles to the empty string, not to a true
condition and not to an error. -/
theorem exists_without_predicate_compiles_to_empty_string
    (configuration : ParsedConfiguration) (collection : String)
    (rels : List (String × Relationship)) (vars : List (String × JValue))
    (rel_name : String) (args1 args2 : List (String × RelationshipArgument))
    (collection2 : String) (tbl ftbl : String) (r : Relationship)
    (parts : List String)
    (htbl : qualifiedTableOf configuration collection = some tbl)
    (hargs : create_arguments vars args1 = some parts)
    (hrel : lookupKey rels rel_name = some r)
    (hftbl : qualifiedTableOf configuration r.target_collection = some ftbl) :
    process_sql_expression configuration collection rels vars
      (.existsIn (.related rel_name args1) none) = some (.ok "") ∧
    process_sql_expression configuration collection rels vars
      (.existsIn (.unrelated collection2 args2) none) = some (.ok "") := by
  constructor
  · simp [process_sql_expression, htbl, hargs, hrel, hftbl]
  · simp [process_sql_expression, htbl]

/-- Witness for C9 on the concrete `customer` relationship. -/
theorem exists_without_predicate_compiles_to_empty_string_witness :
    process_sql_expression ex_config "orders" ex_relationships []
      (.existsIn (.related "customer" []) none) = some (.ok "") ∧
    process_sql_expression ex_config "orders" ex_relationships []
      (.existsIn (.unrelated "customers" []) none) = some (.ok "") :=
  exists_without_predicate_compiles_to_empty_string ex_config "orders"
    ex_relationships [] "customer" [] [] "customers" "\"s\".\"orders\""
    "\"s\".\"customers\"" ex_customer_rel [] rfl rfl rfl rfl

/-! ## Claims about the relationship resolver (`query.rs`) -/

/-- Keeping the first element when there is more than one is the same as
taking a prefix of length one. -/
theorem keep_first_eq_take_one (l : List Row) :
    (if l.length > 1 then
       match l with
       | c :: _ => [c]
       | [] => []
     else l) = l.take 1 := by
  match l with
  | [] => rfl
  | [a] => rfl
  | a :: b :: rest => simp

/-- Evaluation of `revise_query` when the child query's field selection is
present: the revised query keeps the aggregates, extends the fields with
the key columns, clears limit and offset, and installs the synthesized
predicate. -/
theorem revise_query_eq (query : Query) (p : Expression)
    (pks : List (String × String)) (flds : List (String × Field))
    (hfields : query.fields = some flds) :
    revise_query query p pks = some (Query.mk query.aggregates
      (some (pks.foldl (fun fields pk =>
        let (key, name) := pk
        if ¬ containsKey fields name then mapInsert fields key (.column name)
        else fields) flds))
      none none (some p)) := by
  simp [revise_query, hfields]

/-- C3: a relationship whose column mapping has more than one pair makes the
resolver return the composite-key error, for every executor — so no child
query is ever executed and no partial join is produced. -/
theorem composite_key_relationship_fails_before_execution
    (coll_rel : List (String × Relationship))
    (executor : Relationship → Query → Option (Except String (List Row)))
    (rows : List Row) (field_name : String) (query : Query)
    (relationship : String) (sub_relationship : Relationship)
    (hrel : lookupKey coll_rel relationship = some sub_relationship)
    (hcomposite : sub_relationship.column_mapping.length > 1) :
    resolve_relationship_field coll_rel executor rows field_name query
      relationship =
    some (.error "Cannot create a sub-query based on a composite key") := by
  simp [resolve_relationship_field, hrel, parse_relationship, hcomposite]

/-- Witness for C3: the two-pair mapping of `ex_composite_rel` is rejected,
whatever the executor would have returned. -/
theorem composite_key_relationship_fails_before_execution_witness :
    resolve_relationship_field ex_relationships
      (fun _ _ => some (.ok ex_child_rows)) [ex_parent_row] "kids" c2_query
      "composite" =
    some (.error "Cannot create a sub-query based on a composite key") :=
  composite_key_relationship_fails_before_execution ex_relationships
    (fun _ _ => some (.ok ex_child_rows)) [ex_parent_row] "kids" c2_query
    "composite" ex_composite_rel rfl (by decide)

/-- C2 counterexample: a child query that carries its own predicate
(`c2_child_predicate`) does not keep it after `revise_query` — the revised
predicate is exactly the synthesized `IN` expression, in which the original
child predicate does not occur at all, so the two constraints do not both
hold in the recursive child query. -/
theorem revise_query_drops_child_predicate :
    c2_query.predicate = some c2_child_predicate ∧
    (revise_query c2_query c2_in_predicate c2_pks).map Query.predicate =
      some (some c2_in_predicate) ∧
    Expression.containsSub c2_in_predicate c2_child_predicate = false :=
  ⟨rfl, rfl, rfl⟩

/-- C2 as amended: the resolver synthesizes `<related key column> _in
<value list>` and REPLACES the child query's predicate with it (a
pre-existing child predicate is discarded), while removing the child-level
limit and offset before recursion. -/
theorem revise_query_replaces_predicate_and_clears_pagination
    (query : Query) (pks : List (String × String)) (value : JValue)
    (k n : String) (rest : List (String × String))
    (flds : List (String × Field))
    (hpks : pks = (k, n) :: rest) (hfields : query.fields = some flds) :
    ∃ e rq, generate_predicate pks value = some e ∧
      e = .binaryComparisonOperator (.column n none) "_in" (.scalar value) ∧
      revise_query query e pks = some rq ∧
      rq.predicate = some e ∧ rq.limit = none ∧ rq.offset = none := by
  subst hpks
  exact ⟨_, _, rfl, rfl, revise_query_eq query _ _ flds hfields, rfl, rfl, rfl⟩

/-- Witness for C2 (amended) on the concrete child query and mapping. -/
theorem revise_query_replaces_predicate_and_clears_pagination_witness :
    ∃ e rq, generate_predicate c2_pks (.arr [.num 9]) = some e ∧
      e = .binaryComparisonOperator (.column "id" none) "_in"
            (.scalar (.arr [.num 9])) ∧
      revise_query c2_query e c2_pks = some rq ∧
      rq.predicate = some e ∧ rq.limit = none ∧ rq.offset = none :=
  revise_query_replaces_predicate_and_clears_pagination c2_query c2_pks
    (.arr [.num 9]) "customer_id" "id" [] [("name", .column "name")] rfl rfl

/-- C5: for every parent row, an object relationship attaches at most one
child row — the first matching one when several fetched child rows match
the parent's key value. -/
theorem object_relationship_keeps_at_most_first_match
    (field_name : String) (fk_rows : List Row)
    (pks : List (String × String)) (fks : List String) (row : Row)
    (fk0 : String) (pk_value v0 : JValue) (key name : String)
    (hfks : fks.head? = some fk0)
    (hpk : lookupKey row fk0 = some pk_value)
    (hfield : lookupKey row field_name = some v0)
    (hpks : pks.head? = some (key, name)) :
    process_object_row field_name fk_rows pks fks row =
      some (mapInsert row field_name
        (process_child_rows ((childMatches fk_rows key pk_value).take 1))) ∧
    ((childMatches fk_rows key pk_value).take 1).length ≤ 1 := by
  constructor
  · simp [process_object_row, hfks, hpk, hfield, hpks, keep_first_eq_take_one]
  · simp

/-- Witness for C5: the example parent row with ten matching children. -/
theorem object_relationship_keeps_at_most_first_match_witness :
    process_object_row "kids" ex_child_rows [("customer_id", "id")]
      ["customer_id"] ex_parent_row =
      some (mapInsert ex_parent_row "kids"
        (process_child_rows
          ((childMatches ex_child_rows "customer_id" (.num 9)).take 1))) ∧
    ((childMatches ex_child_rows "customer_id" (.num 9)).take 1).length ≤ 1 :=
  object_relationship_keeps_at_most_first_match "kids" ex_child_rows
    [("customer_id", "id")] ["customer_id"] ex_parent_row "customer_id"
    (.num 9) (.num 1) "customer_id" "id" rfl rfl rfl rfl

/-- C6: the revised child query carries no limit/offset, and the array
relationship applies them locally per parent: with limit `l > 0` and offset
`o ≤` the number of matching children, the attached children are the slice
`[o, min(o + l, count))` of the matching child list. -/
theorem array_relationship_applies_local_pagination
    (field_name : String) (fk_rows : List Row)
    (pks : List (String × String)) (fks : List String) (q : Query)
    (row : Row) (fk0 : String) (pk_value v0 : JValue) (key name : String)
    (l o : Nat) (p : Expression) (flds : List (String × Field))
    (hfks : fks.head? = some fk0)
    (hpk : lookupKey row fk0 = some pk_value)
    (hfield : lookupKey row field_name = some v0)
    (hpks : pks.head? = some (key, name))
    (hlim : q.limit = some l) (hlpos : 0 < l) (hoff : q.offset = some o)
    (hfields : q.fields = some flds)
    (hne : childMatches fk_rows key pk_value ≠ [])
    (hole : o ≤ (childMatches fk_rows key pk_value).length) :
    (∃ rq, revise_query q p pks = some rq ∧
      rq.limit = none ∧ rq.offset = none) ∧
    process_array_row field_name fk_rows pks fks q row =
      some (mapInsert row field_name (process_child_rows
        (((childMatches fk_rows key pk_value).take
            (min (o + l) (childMatches fk_rows key pk_value).length)).drop o))) := by
  constructor
  · exact ⟨_, revise_query_eq q p pks flds hfields, rfl, rfl⟩
  · have hcond : o ≤ min (o + l) (childMatches fk_rows key pk_value).length :=
      le_min (Nat.le_add_right o l) hole
    simp [process_array_row, hfks, hpk, hfield, hpks, hlim, hoff, hne, hcond,
      hlpos, hole]

/-- Witness for C6: ten matching children with limit 3 and offset 2 — the
attached slice is `take (min (2+3) 10)` then `drop 2`, i.e. the children at
positions 2, 3 and 4. -/
theorem array_relationship_applies_local_pagination_witness :
    (∃ rq, revise_query c6_query c2_in_predicate c2_pks = some rq ∧
      rq.limit = none ∧ rq.offset = none) ∧
    process_array_row "kids" ex_child_rows c2_pks ["customer_id"] c6_query
      ex_parent_row =
      some (mapInsert ex_parent_row "kids" (process_child_rows
        (((childMatches ex_child_rows "customer_id" (.num 9)).take
            (min (2 + 3)
              (childMatches ex_child_rows "customer_id" (.num 9)).length)).drop
          2))) :=
  array_relationship_applies_local_pagination "kids" ex_child_rows c2_pks
    ["customer_id"] c6_query ex_parent_row "customer_id" (.num 9) (.num 1)
    "customer_id" "id" 3 2 c2_in_predicate [("n", .column "n")] rfl rfl rfl
    rfl rfl (by decide) rfl rfl
    (fun h => absurd (congrArg List.length h) (by decide)) (by decide)

/-- C10: with a positive limit and at least one matching child, an offset
greater than the matched-child count makes the slice bounds invalid and the
attachment panics (`none`) instead of attaching an empty list; with no
limit, the offset is ignored and all matching children are attached. -/
theorem array_relationship_offset_overflow_panics
    (field_name : String) (fk_rows : List Row)
    (pks : List (String × String)) (fks : List String) (q : Query)
    (row : Row) (fk0 : String) (pk_value v0 : JValue) (key name : String)
    (hfks : fks.head? = some fk0)
    (hpk : lookupKey row fk0 = some pk_value)
    (hfield : lookupKey row field_name = some v0)
    (hpks : pks.head? = some (key, name)) :
    (∀ l o, q.limit = some l → 0 < l → q.offset = some o →
      childMatches fk_rows key pk_value ≠ [] →
      (childMatches fk_rows key pk_value).length < o →
      process_array_row field_name fk_rows pks fks q row = none) ∧
    (q.limit = none →
      process_array_row field_name fk_rows pks fks q row =
        some (mapInsert row field_name
          (process_child_rows (childMatches fk_rows key pk_value)))) := by
  constructor
  · intro l o hlim hlpos hoff hne hlt
    have hmin : min (o + l) (childMatches fk_rows key pk_value).length < o := by
      omega
    simp [process_array_row, hfks, hpk, hfield, hpks, hlim, hoff, hne,
      Nat.not_le.mpr hmin, hlpos, hlt]
  · intro hlim
    simp [process_array_row, hfks, hpk, hfield, hpks, hlim]

/-- Witness for C10: offset 20 against ten matching children panics with
limit 3, while with no limit all ten children are attached despite the
offset. -/
theorem array_relationship_offset_overflow_panics_witness :
    process_array_row "kids" ex_child_rows c2_pks ["customer_id"] c10_query
      ex_parent_row = none ∧
    process_array_row "kids" ex_child_rows c2_pks ["customer_id"]
      c10_query_no_limit ex_parent_row =
      some (mapInsert ex_parent_row "kids"
        (process_child_rows (childMatches ex_child_rows "customer_id" (.num 9)))) :=
  ⟨(array_relationship_offset_overflow_panics "kids" ex_child_rows c2_pks
      ["customer_id"] c10_query ex_parent_row "customer_id" (.num 9) (.num 1)
      "customer_id" "id" rfl rfl rfl rfl).1 3 20 rfl (by decide) rfl
      (fun h => absurd (congrArg List.length h) (by decide)) (by decide),
   (array_relationship_offset_overflow_panics "kids" ex_child_rows c2_pks
      ["customer_id"] c10_query_no_limit ex_parent_row "customer_id" (.num 9)
      (.num 1) "customer_id" "id" rfl rfl rfl rfl).2 rfl⟩

/-! ## Claims about row-shape normalization (`calcite.rs`) -/

/-- A key is contained in a map exactly when it is one of the map's keys. -/
theorem containsKey_eq_true_iff {α : Type} (m : List (String × α)) (k : String) :
    containsKey m k = true ↔ k ∈ m.map Prod.fst := by
  induction m with
  | nil => simp [containsKey]
  | cons a rest ih =>
      simp only [containsKey, Bool.or_eq_true, decide_eq_true_eq, ih,
        List.map_cons, List.mem_cons]
      constructor
      · rintro (h | h)
        · exact Or.inl h.symm
        · exact Or.inr h
      · rintro (h | h)
        · exact Or.inl h.symm
        · exact Or.inr h

/-- Key membership after an `IndexMap` insert. -/
theorem containsKey_mapInsert_iff {α : Type} (m : List (String × α))
    (k : String) (v : α) (k' : String) :
    containsKey (mapInsert m k v) k' = true ↔
      (containsKey m k' = true ∨ k' = k) := by
  induction m with
  | nil => simp [mapInsert, containsKey, eq_comm]
  | cons a rest ih =>
      obtain ⟨a1, a2⟩ := a
      by_cases h : a1 = k
      · subst h
        simp only [mapInsert, if_pos, containsKey, Bool.or_eq_true,
          decide_eq_true_eq]
        constructor
        · exact Or.inl
        · rintro ((h | h) | h)
          · exact Or.inl h
          · exact Or.inr h
          · exact Or.inl h.symm
      · simp [mapInsert, h, containsKey, ih, or_assoc]

/-- Key membership after the backfilling pass of `fix_row`. -/
theorem containsKey_backfill_iff (ks : List String) (row : Row) (k : String) :
    containsKey (ks.foldl (fun row key =>
      if ¬ containsKey row key then mapInsert row key .null else row) row) k
        = true ↔
      (containsKey row k = true ∨ k ∈ ks) := by
  induction ks generalizing row with
  | nil => simp
  | cons x ks ih =>
      simp only [List.foldl_cons]
      rw [ih]
      by_cases hx : containsKey row x = true
      · rw [if_neg (by simp [hx])]
        constructor
        · rintro (h | h)
          · exact Or.inl h
          · exact Or.inr (List.mem_cons_of_mem _ h)
        · rintro (h | h)
          · exact Or.inl h
          · rcases List.mem_cons.mp h with rfl | h
            · exact Or.inl hx
            · exact Or.inr h
      · rw [if_pos (by simp [hx])]
        rw [containsKey_mapInsert_iff]
        simp only [List.mem_cons]
        tauto

/-- Sentinel normalization does not change a row's keys. -/
theorem containsKey_map_normalize (row : Row) (k : String) :
    containsKey (row.map (fun kv => (kv.1, normalizeSentinel kv.2))) k =
      containsKey row k := by
  induction row with
  | nil => rfl
  | cons a rest ih => simp [containsKey, ih]

/-- `swap_remove` of an absent key leaves the map unchanged. -/
theorem swapRemove_of_not_contains {α : Type} (m : List (String × α))
    (k : String) (h : containsKey m k = false) : swapRemove m k = m := by
  have hidx : m.findIdx? (fun kv => kv.1 = k) = none := by
    rw [List.findIdx?_eq_none_iff]
    intro x hx
    by_contra hp
    have hx1 : x.1 = k := by simpa using hp
    have : containsKey m k = true := by
      rw [containsKey_eq_true_iff]
      exact hx1 ▸ List.mem_map_of_mem Prod.fst hx
    simp [this] at h
  simp [swapRemove, hidx]

/-- C7 counterexample: for requested fields `{f1, f2}` the engine row
`{f1, x}` passes through `fix_rows` unchanged — it is as wide as the
request, so no backfilling happens; the requested key `f2` is missing from
the result and the non-requested key `x` is retained. -/
theorem fix_rows_extra_engine_columns_break_exact_shape :
    fix_rows [c7_engine_row] c7_query = [c7_engine_row] ∧
    containsKey c7_engine_row "f2" = false ∧
    containsKey c7_engine_row "x" = true :=
  ⟨rfl, rfl, rfl⟩

/-- C7 as amended: provided every column the engine returned is one of the
requested fields, each normalized row contains exactly the requested keys —
missing requested fields are backfilled with null defaults and sentinel
null markers are normalized.  (When the engine returns columns outside the
request, they are retained and can suppress backfilling, so the exact-shape
guarantee does not hold in general.) -/
theorem fix_rows_exact_shape_for_requested_subset
    (q : Query) (flds : List (String × Field)) (rows : List Row)
    (hqf : q.fields = some flds) (hqa : q.aggregates = none)
    (hconst : "CONSTANT" ∉ flds.map Prod.fst) :
    fix_rows rows q = rows.map (fix_row (flds.map Prod.fst) flds.length) ∧
    ∀ row ∈ rows, (row.map Prod.fst).Nodup →
      row.map Prod.fst ⊆ flds.map Prod.fst →
      ∀ k, (containsKey (fix_row (flds.map Prod.fst) flds.length row) k = true ↔
        k ∈ flds.map Prod.fst) := by
  constructor
  · simp [fix_rows, hqf, hqa]
  · intro row hrow hnodup hsub k
    by_cases hlen : flds.length > row.length
    · have hC : containsKey (((flds.map Prod.fst).foldl (fun row key =>
          if ¬ containsKey row key then mapInsert row key .null else row)
            row).map (fun kv => (kv.1, normalizeSentinel kv.2))) "CONSTANT"
          = false := by
        rw [containsKey_map_normalize]
        by_contra hx
        have hx' : containsKey ((flds.map Prod.fst).foldl (fun row key =>
            if ¬ containsKey row key then mapInsert row key .null else row)
              row) "CONSTANT" = true := by
          revert hx
          cases containsKey ((flds.map Prod.fst).foldl (fun row key =>
            if ¬ containsKey row key then mapInsert row key .null else row)
              row) "CONSTANT" <;> simp
        rcases (containsKey_backfill_iff _ _ _).mp hx' with h | h
        · exact hconst (hsub ((containsKey_eq_true_iff row _).mp h))
        · exact hconst h
      simp only [fix_row, if_pos hlen]
      rw [swapRemove_of_not_contains _ _ hC, containsKey_map_normalize,
        containsKey_backfill_iff]
      constructor
      · rintro (h | h)
        · exact hsub ((containsKey_eq_true_iff row k).mp h)
        · exact h
      · exact Or.inr
    · have hperm : List.Perm (row.map Prod.fst) (flds.map Prod.fst) := by
        apply List.Subperm.perm_of_length_le (List.Nodup.subperm hnodup hsub)
        simpa using Nat.le_of_not_lt hlen
      have hC : containsKey (row.map (fun kv =>
          (kv.1, normalizeSentinel kv.2))) "CONSTANT" = false := by
        rw [containsKey_map_normalize]
        by_contra hx
        have hx' : containsKey row "CONSTANT" = true := by
          revert hx
          cases containsKey row "CONSTANT" <;> simp
        exact hconst (hperm.mem_iff.mp ((containsKey_eq_true_iff row _).mp hx'))
      simp only [fix_row, if_neg hlen]
      rw [swapRemove_of_not_contains _ _ hC, containsKey_map_normalize,
        containsKey_eq_true_iff]
      exact hperm.mem_iff

/-- Witness for C7 (amended): the engine returned only `{f1}` for the
request `{f1, f2}`; after normalization the row's keys are exactly the
requested ones (`f2` got backfilled). -/
theorem fix_rows_exact_shape_for_requested_subset_witness :
    containsKey (fix_row ([("f1", Field.column "f1"),
        ("f2", Field.column "f2")].map Prod.fst)
      ([("f1", Field.column "f1"), ("f2", Field.column "f2")] :
        List (String × Field)).length [("f1", JValue.num 1)]) "f2" = true ↔
    "f2" ∈ [("f1", Field.column "f1"), ("f2", Field.column "f2")].map Prod.fst :=
  (fix_rows_exact_shape_for_requested_subset c7_query
      [("f1", Field.column "f1"), ("f2", Field.column "f2")]
      [[("f1", JValue.num 1)]] rfl rfl (by decide)).2
    [("f1", JValue.num 1)] (List.Mem.head _) (by decide) (by simp) "f2"

end NdcCalcite
